import Mathlib

/-!
Shallow embedding of the DS18B20 one-wire temperature-sensor driver
(`src/asynch.rs`) and proofs about its protocol layer.

Machine integers are modelled as `ℕ` (bytes, `u8`/`u16` values) and `ℤ`
(`i8` values), with explicit `% 256` where two's-complement conversion
matters.  Fallible operations return `Except (OneWireError E) α`, mirroring
`OneWireResult<T, E> = Result<T, OneWireError<E>>`.  Bus-facing operations
are embedded as pure functions from the bus's responses (one `Except` value
per primitive bus call, and a stream of bit reads for the poll loop) to the
pair of the trace of bus events performed and the returned result.
-/

/-- Modelled from the spec: the error taxonomy of the external one-wire bus
collaborator (spec §7).  `src/asynch.rs` itself names the variants
`FamilyCodeMismatch`, `CrcMismatch` and `Timeout`; transport-level errors
are opaque values of type `E` passed through unchanged (`pinError`). -/
inductive OneWireError (E : Type) where
  | pinError (e : E)
  | unexpectedResponse
  | familyCodeMismatch
  | crcMismatch
  | timeout
deriving DecidableEq, Repr

deriving instance DecidableEq for Except

/-- Modelled from the spec: the crate-root constant `FAMILY_CODE` is not under
`src/`; the spec (§3, §4.1) says construction checks the address's family-code
byte against the expected sensor family constant.  The value is the DS18B20
family code byte. -/
def FAMILY_CODE : ℕ := 0x28

/-- Modelled from the spec: the `commands` module of this crate is not under
`src/`; the spec (§2) says each logical operation maps to a one-byte opcode.
Opcode byte for "convert temperature". -/
def CONVERT_TEMP : ℕ := 0x44

/-- Modelled from the spec: opcode byte for "write scratchpad" (see
`CONVERT_TEMP` for provenance). -/
def WRITE_SCRATCHPAD : ℕ := 0x4E

/-- Modelled from the spec: opcode byte for "read scratchpad". -/
def READ_SCRATCHPAD : ℕ := 0xBE

/-- Modelled from the spec: opcode byte for "copy scratchpad to EEPROM". -/
def COPY_SCRATCHPAD : ℕ := 0x48

/-- Modelled from the spec: opcode byte for "recall from EEPROM". -/
def RECALL_EEPROM : ℕ := 0xB8

/-- The resolution enum of `src/asynch.rs` (`ResolutionAsync`), with variants
`Bits9 = 0b00011111`, `Bits10 = 0b00111111`, `Bits11 = 0b01011111`,
`Bits12 = 0b01111111`; the discriminant values are recovered by
`ResolutionAsync.to_config_register`. -/
inductive ResolutionAsync where
  | bits9
  | bits10
  | bits11
  | bits12
deriving DecidableEq, Repr

/-- Embedding of `ResolutionAsync::to_config_register` (`self as u8`, i.e. the
`#[repr(u8)]` discriminant of each variant). -/
def ResolutionAsync.to_config_register : ResolutionAsync → ℕ
  | .bits9 => 0b00011111
  | .bits10 => 0b00111111
  | .bits11 => 0b01011111
  | .bits12 => 0b01111111

/-- Embedding of `ResolutionAsync::from_config_register`: an exact match on the
four valid register encodings, `None` otherwise. -/
def ResolutionAsync.from_config_register (config : ℕ) : Option ResolutionAsync :=
  if config = 0b00011111 then some .bits9
  else if config = 0b00111111 then some .bits10
  else if config = 0b01011111 then some .bits11
  else if config = 0b01111111 then some .bits12
  else none

/-- Embedding of `ResolutionAsync::max_measurement_time_millis`. -/
def ResolutionAsync.max_measurement_time_millis : ResolutionAsync → ℕ
  | .bits9 => 94
  | .bits10 => 188
  | .bits11 => 375
  | .bits12 => 750

/-- Two's-complement reinterpretation of a byte as an `i8`, embedding Rust's
`i8::from_le_bytes([b])` (the `% 256` makes the function total; bytes read
from the bus are below 256). -/
def i8_of_byte (b : ℕ) : ℤ :=
  if b % 256 < 128 then (b % 256 : ℤ) else (b % 256 : ℤ) - 256

/-- Byte (two's-complement) representation of an `i8`, embedding Rust's
`x.to_ne_bytes()[0]` for `x : i8`. -/
def byte_of_i8 (x : ℤ) : ℕ := (x % 256).toNat

/-- Embedding of the `SensorData` struct.  The `f32` temperature is modelled
as `ℚ`: the only operation performed on it is division of a `u16`-ranged
numerator by 2, 4, 8 or 16, which is exact in `f32`. -/
structure SensorData where
  temperature : ℚ
  resolution : ResolutionAsync
  alarm_temp_low : ℤ
  alarm_temp_high : ℤ
deriving DecidableEq, Repr

/-- Embedding of the `Ds18b20Async` driver handle: it holds only the device
address (a 64-bit identifier modelled as `ℕ`). -/
structure Ds18b20Async where
  address : ℕ
deriving DecidableEq, Repr

/-- Modelled from the spec: `Address::family_code` lives in the external
`one_wire_bus` crate; the spec (§3) says the address's low byte is the family
code. -/
def family_code (address : ℕ) : ℕ := address % 256

/-- Embedding of `Ds18b20Async::new`: a pure function (no bus I/O) that
succeeds exactly when the family-code byte of the address matches
`FAMILY_CODE`, and otherwise fails with `FamilyCodeMismatch`. -/
def Ds18b20Async.new (E : Type) (address : ℕ) : Except (OneWireError E) Ds18b20Async :=
  if family_code address = FAMILY_CODE then .ok ⟨address⟩
  else .error .familyCodeMismatch

/-- One bus-facing action, as recorded in the trace of an operation. -/
inductive Event where
  | reset
  | matchAddress (address : ℕ)
  | skipAddress
  | writeByte (b : ℕ)
  | readBytes (n : ℕ)
  | readBit
  | delayUs (us : ℕ)
deriving DecidableEq, Repr, BEq

/-- Responses of the bus to the three primitive calls made by
`OneWireAsync::send_command` (reset, addressing, one byte write). -/
structure CmdResponses (E : Type) where
  resetR : Except (OneWireError E) Unit
  addrR : Except (OneWireError E) Unit
  writeR : Except (OneWireError E) Unit
deriving Repr

/-- Addressing event chosen per call: unicast (`match_address`) when a device
address is supplied, broadcast (`skip_address`) when not. -/
def addrEvent : Option ℕ → Event
  | some a => .matchAddress a
  | none => .skipAddress

/-- Modelled from the spec: `OneWireAsync::send_command` lives in the external
`one_wire_bus` crate; the spec (§2, §4.2) says a command is issued as a bus
reset, then an addressing step (one device or all, per caller), then the
one-byte opcode write.  Each step's failure aborts the exchange and is
returned unchanged. -/
def send_command (E : Type) (cmd : ℕ) (target : Option ℕ) (r : CmdResponses E) :
    List Event × Except (OneWireError E) Unit :=
  match r.resetR with
  | .error e => ([.reset], .error e)
  | .ok _ =>
    match r.addrR with
    | .error e => ([.reset, addrEvent target], .error e)
    | .ok _ =>
      match r.writeR with
      | .error e => ([.reset, addrEvent target, .writeByte cmd], .error e)
      | .ok _ => ([.reset, addrEvent target, .writeByte cmd], .ok ())

/-- Responses of the bus to the four primitive calls made by
`read_scratchpad` (reset, match address, opcode write, 9-byte read).  A
successful read delivers the content of the 9-byte buffer. -/
structure ScratchpadResponses (E : Type) where
  resetR : Except (OneWireError E) Unit
  addrR : Except (OneWireError E) Unit
  writeR : Except (OneWireError E) Unit
  readR : Except (OneWireError E) (List ℕ)
deriving Repr

/-- Modelled from the spec: `one_wire_bus::crc::check_crc8` is external; the
spec (§4.2) says the block is validated by checking the checksum computed
over the first 8 bytes against byte 9, failing with the checksum-mismatch
error on disagreement.  The checksum function itself (`crc8`) stays a
parameter owned by the bus collaborator. -/
def check_crc8 (E : Type) (crc8 : List ℕ → ℕ) (data : List ℕ) :
    Except (OneWireError E) Unit :=
  if crc8 (data.take 8) = data.getD 8 0 then .ok () else .error .crcMismatch

/-- Embedding of the free function `read_scratchpad` of `src/asynch.rs`:
reset, match the device address, write the read-scratchpad opcode, read 9
bytes, then `check_crc8` on the block; each fallible step aborts with its
error unchanged. -/
def read_scratchpad (E : Type) (crc8 : List ℕ → ℕ) (address : ℕ)
    (r : ScratchpadResponses E) :
    List Event × Except (OneWireError E) (List ℕ) :=
  match r.resetR with
  | .error e => ([.reset], .error e)
  | .ok _ =>
    match r.addrR with
    | .error e => ([.reset, .matchAddress address], .error e)
    | .ok _ =>
      match r.writeR with
      | .error e => ([.reset, .matchAddress address, .writeByte READ_SCRATCHPAD], .error e)
      | .ok _ =>
        match r.readR with
        | .error e =>
          ([.reset, .matchAddress address, .writeByte READ_SCRATCHPAD, .readBytes 9],
           .error e)
        | .ok scratchpad =>
          match check_crc8 E crc8 scratchpad with
          | .error e =>
            ([.reset, .matchAddress address, .writeByte READ_SCRATCHPAD, .readBytes 9],
             .error e)
          | .ok _ =>
            ([.reset, .matchAddress address, .writeByte READ_SCRATCHPAD, .readBytes 9],
             .ok scratchpad)

/-- Embedding of the scratchpad-decoding tail of the free function `read_data`
of `src/asynch.rs` (the part after `read_scratchpad` returns): decode the
configuration register or fail with `CrcMismatch`, form the raw temperature
as `u16::from_le_bytes([scratchpad[0], scratchpad[1]])` (unsigned), divide by
the resolution's scale factor, and reinterpret bytes 2 and 3 as `i8` alarm
thresholds. -/
def decode_sensor_data (E : Type) (scratchpad : List ℕ) :
    Except (OneWireError E) SensorData :=
  match ResolutionAsync.from_config_register (scratchpad.getD 4 0) with
  | none => .error .crcMismatch
  | some resolution =>
    let raw_temp : ℕ := scratchpad.getD 0 0 + 256 * scratchpad.getD 1 0
    let temperature : ℚ :=
      match resolution with
      | .bits12 => (raw_temp : ℚ) / 16
      | .bits11 => (raw_temp : ℚ) / 8
      | .bits10 => (raw_temp : ℚ) / 4
      | .bits9 => (raw_temp : ℚ) / 2
    .ok { temperature := temperature
          resolution := resolution
          alarm_temp_high := i8_of_byte (scratchpad.getD 2 0)
          alarm_temp_low := i8_of_byte (scratchpad.getD 3 0) }

/-- Embedding of the free function `read_data` of `src/asynch.rs`:
`read_scratchpad` followed by `decode_sensor_data` on the returned block. -/
def read_data (E : Type) (crc8 : List ℕ → ℕ) (address : ℕ)
    (r : ScratchpadResponses E) :
    List Event × Except (OneWireError E) SensorData :=
  match read_scratchpad E crc8 address r with
  | (t, .error e) => (t, .error e)
  | (t, .ok scratchpad) => (t, decode_sensor_data E scratchpad)

/-- Responses of the bus to the calls made by `Ds18b20Async::set_config`: the
`send_command` triple followed by three byte writes. -/
structure SetConfigResponses (E : Type) where
  cmd : CmdResponses E
  w1R : Except (OneWireError E) Unit
  w2R : Except (OneWireError E) Unit
  w3R : Except (OneWireError E) Unit
deriving Repr

/-- Embedding of `Ds18b20Async::set_config`: unicast `send_command` with the
write-scratchpad opcode, then three byte writes in source order — the high
alarm threshold, the low alarm threshold, the resolution register byte. -/
def set_config (E : Type) (alarm_temp_low alarm_temp_high : ℤ)
    (resolution : ResolutionAsync) (address : ℕ) (r : SetConfigResponses E) :
    List Event × Except (OneWireError E) Unit :=
  match send_command E WRITE_SCRATCHPAD (some address) r.cmd with
  | (t, .error e) => (t, .error e)
  | (t, .ok _) =>
    match r.w1R with
    | .error e => (t ++ [.writeByte (byte_of_i8 alarm_temp_high)], .error e)
    | .ok _ =>
      match r.w2R with
      | .error e =>
        (t ++ [.writeByte (byte_of_i8 alarm_temp_high),
               .writeByte (byte_of_i8 alarm_temp_low)], .error e)
      | .ok _ =>
        match r.w3R with
        | .error e =>
          (t ++ [.writeByte (byte_of_i8 alarm_temp_high),
                 .writeByte (byte_of_i8 alarm_temp_low),
                 .writeByte resolution.to_config_register], .error e)
        | .ok _ =>
          (t ++ [.writeByte (byte_of_i8 alarm_temp_high),
                 .writeByte (byte_of_i8 alarm_temp_low),
                 .writeByte resolution.to_config_register], .ok ())

/-- Embedding of the free function `save_to_eeprom` of `src/asynch.rs`:
`send_command` with the copy-scratchpad opcode (unicast or broadcast per
caller), then an unconditional 10000 µs delay, then success. -/
def save_to_eeprom (E : Type) (target : Option ℕ) (r : CmdResponses E) :
    List Event × Except (OneWireError E) Unit :=
  match send_command E COPY_SCRATCHPAD target r with
  | (t, .error e) => (t, .error e)
  | (t, .ok _) => (t ++ [.delayUs 10000], .ok ())

/-- One-wire completion-poll loop of `recall_from_eeprom`, with the remaining
iteration count as fuel and `bits i` the result of the i-th `read_bit` call:
a set bit returns success, a transport error is returned unchanged, and
exhausting the fuel on clear bits yields `Timeout`.  The trace records one
`readBit` event per bus call actually made. -/
def pollBits (E : Type) (bits : ℕ → Except (OneWireError E) Bool) :
    ℕ → ℕ → List Event × Except (OneWireError E) Unit
  | _, 0 => ([], .error .timeout)
  | i, fuel + 1 =>
    match bits i with
    | .error e => ([.readBit], .error e)
    | .ok true => ([.readBit], .ok ())
    | .ok false =>
      match pollBits E bits (i + 1) fuel with
      | (t, res) => (.readBit :: t, res)

/-- Embedding of the free function `recall_from_eeprom` of `src/asynch.rs`:
`send_command` with the recall opcode, then poll single bits for up to
`10000 / slot + 1` iterations (Rust integer division), where `slot` is the
external bus constant `one_wire_bus::READ_SLOT_DURATION_MICROS` (kept as a
parameter here, the transport owning its value). -/
def recall_from_eeprom (E : Type) (slot : ℕ) (target : Option ℕ)
    (rc : CmdResponses E) (bits : ℕ → Except (OneWireError E) Bool) :
    List Event × Except (OneWireError E) Unit :=
  match send_command E RECALL_EEPROM target rc with
  | (t, .error e) => (t, .error e)
  | (t, .ok _) =>
    match pollBits E bits 0 (10000 / slot + 1) with
    | (tp, res) => (t ++ tp, res)

/-- Definition following the spec's words, for comparison with the code: the
raw 16-bit temperature register "interpreted as a signed two's-complement
quantity". -/
def spec_signed_raw16 (n : ℕ) : ℤ :=
  if n % 65536 < 32768 then (n % 65536 : ℤ) else (n % 65536 : ℤ) - 65536

/-! ## Helper lemmas -/

theorem from_config_register_eq_some (c : ℕ) (r : ResolutionAsync) :
    ResolutionAsync.from_config_register c = some r ↔ c = r.to_config_register := by
  unfold ResolutionAsync.from_config_register
  split_ifs with h1 h2 h3 h4 <;> cases r <;>
    simp_all [ResolutionAsync.to_config_register]

theorem from_config_register_eq_none (c : ℕ) :
    ResolutionAsync.from_config_register c = none ↔
      ∀ r : ResolutionAsync, c ≠ r.to_config_register := by
  constructor
  · intro h r hc
    have := (from_config_register_eq_some c r).2 hc
    rw [h] at this
    cases this
  · intro h
    unfold ResolutionAsync.from_config_register
    split_ifs with h1 h2 h3 h4
    · exact absurd h1 (h .bits9)
    · exact absurd h2 (h .bits10)
    · exact absurd h3 (h .bits11)
    · exact absurd h4 (h .bits12)
    · rfl

theorem pollBits_all_false (E : Type) (bits : ℕ → Except (OneWireError E) Bool)
    (hbits : ∀ i, bits i = .ok false) :
    ∀ fuel i, pollBits E bits i fuel = (List.replicate fuel .readBit, .error .timeout) := by
  intro fuel
  induction fuel with
  | zero => intro i; rfl
  | succ n ih =>
    intro i
    simp [pollBits, hbits i, ih (i + 1), List.replicate_succ]

theorem pollBits_first_deviation (E : Type)
    (bits : ℕ → Except (OneWireError E) Bool) :
    ∀ (fuel k i : ℕ), k < fuel → (∀ j, j < k → bits (i + j) = .ok false) →
    (bits (i + k) = .ok true →
      pollBits E bits i fuel = (List.replicate (k + 1) .readBit, .ok ()))
    ∧ (∀ e, bits (i + k) = .error e →
      pollBits E bits i fuel = (List.replicate (k + 1) .readBit, .error e)) := by
  intro fuel
  induction fuel with
  | zero => intro k i hk; exact absurd hk (Nat.not_lt_zero k)
  | succ n ih =>
    intro k i hk hprev
    cases k with
    | zero =>
      constructor
      · intro ht
        rw [Nat.add_zero] at ht
        simp [pollBits, ht]
      · intro e he
        rw [Nat.add_zero] at he
        simp [pollBits, he]
    | succ m =>
      have h0 : bits i = .ok false := by
        have := hprev 0 (Nat.succ_pos m)
        rwa [Nat.add_zero] at this
      have hrec := ih m (i + 1) (by omega) (fun j hj => by
        have h := hprev (j + 1) (by omega)
        rwa [show i + (j + 1) = i + 1 + j by omega] at h)
      have hidx : i + (m + 1) = i + 1 + m := by omega
      constructor
      · intro ht
        rw [hidx] at ht
        simp [pollBits, h0, hrec.1 ht, List.replicate_succ]
      · intro e he
        rw [hidx] at he
        simp [pollBits, h0, hrec.2 e he, List.replicate_succ]

/-! ## Claim theorems -/

/-- C8: the resolution codec is an exact round-trip on the four valid values:
encoding 9/10/11/12-bit resolution yields register bytes `0b0001_1111`,
`0b0011_1111`, `0b0101_1111`, `0b0111_1111` respectively, decoding each of
those bytes returns the corresponding resolution, and decoding any other byte
value returns no resolution. -/
theorem C8_resolution_codec_roundtrip :
    (ResolutionAsync.to_config_register .bits9 = 0b00011111
      ∧ ResolutionAsync.to_config_register .bits10 = 0b00111111
      ∧ ResolutionAsync.to_config_register .bits11 = 0b01011111
      ∧ ResolutionAsync.to_config_register .bits12 = 0b01111111)
    ∧ (∀ r : ResolutionAsync,
        ResolutionAsync.from_config_register r.to_config_register = some r)
    ∧ (∀ c : ℕ, (∀ r : ResolutionAsync, c ≠ r.to_config_register) →
        ResolutionAsync.from_config_register c = none) := by
  refine ⟨⟨rfl, rfl, rfl, rfl⟩, ?_, ?_⟩
  · intro r
    cases r <;> rfl
  · intro c h
    exact (from_config_register_eq_none c).2 h

/-- Witness for C8: the power-on default byte `0x00` decodes to no
resolution. -/
theorem C8_resolution_codec_roundtrip_witness :
    ResolutionAsync.from_config_register 0 = none :=
  C8_resolution_codec_roundtrip.2.2 0 (by intro r; cases r <;> decide)

/-- C3: for every 64-bit device address, `Ds18b20Async::new` succeeds iff the
address's family-code byte equals `FAMILY_CODE`, and otherwise fails with
`FamilyCodeMismatch`.  The embedding of construction is a pure function of
the address alone: it performs no bus I/O. -/
theorem C3_construction_family_gate (E : Type) (address : ℕ)
    (_h64 : address < 2 ^ 64) :
    ((∃ d : Ds18b20Async, Ds18b20Async.new E address = .ok d) ↔
      family_code address = FAMILY_CODE)
    ∧ (family_code address ≠ FAMILY_CODE →
      Ds18b20Async.new E address = .error .familyCodeMismatch) := by
  unfold Ds18b20Async.new
  split_ifs with h <;> simp [h]

/-- Witness for C3: address `0` has family-code byte `0 ≠ 0x28`, so
construction fails with the family-mismatch error. -/
theorem C3_construction_family_gate_witness :
    Ds18b20Async.new Unit 0 = .error .familyCodeMismatch :=
  (C3_construction_family_gate Unit 0 (by norm_num)).2 (by decide)

/-- C1 (code-bug evaluation): the claim and the spec say the raw 16-bit
temperature register is a signed two's-complement quantity, but `read_data`
forms it with `u16::from_le_bytes` (unsigned).  On the checksum-irrelevant
decode of the block with raw bytes `0xF8 0xFF` (raw register `0xFFF8`, i.e.
`-8` as a signed quantity) at 12-bit resolution, the code returns
`65528 / 16 = 4095.5 °C`, while the claimed signed reading is
`-8 / 16 = -0.5 °C`. -/
theorem C1_unsigned_decode_diverges_from_signed_spec :
    decode_sensor_data Unit [248, 255, 0, 0, 127, 255, 255, 255, 0]
      = .ok { temperature := 65528 / 16, resolution := .bits12,
              alarm_temp_low := 0, alarm_temp_high := 0 }
    ∧ spec_signed_raw16 65528 = -8
    ∧ ((65528 : ℚ) / 16 ≠ (spec_signed_raw16 65528 : ℚ) / 16) := by
  refine ⟨?_, by decide, ?_⟩
  · simp [decode_sensor_data, ResolutionAsync.from_config_register, i8_of_byte]
  · norm_num [spec_signed_raw16]

/-- C9: every successfully decoded scratchpad block yields a non-negative
temperature, because the raw temperature bytes are combined as an unsigned
16-bit value before scaling. -/
theorem C9_decoded_temperature_nonneg (E : Type) (scratchpad : List ℕ)
    (s : SensorData) (h : decode_sensor_data E scratchpad = .ok s) :
    0 ≤ s.temperature := by
  unfold decode_sensor_data at h
  cases hres : ResolutionAsync.from_config_register (scratchpad.getD 4 0) with
  | none =>
    rw [hres] at h
    exact Except.noConfusion h
  | some resolution =>
    rw [hres] at h
    injection h with h
    subst h
    cases resolution <;> positivity

/-- Witness for C9: the power-on scratchpad block (raw `0x0550`, 12-bit)
decodes to the non-negative temperature `85 °C`. -/
theorem C9_decoded_temperature_nonneg_witness :
    (0 : ℚ) ≤ (1360 : ℚ) / 16 :=
  C9_decoded_temperature_nonneg Unit [80, 5, 0, 0, 127, 0, 0, 0, 0]
    ⟨(1360 : ℚ) / 16, .bits12, 0, 0⟩
    (by simp [decode_sensor_data, ResolutionAsync.from_config_register, i8_of_byte])

/-- C4: whenever `read_scratchpad` hands back a (checksum-valid) block whose
configuration byte matches none of the four valid resolution encodings,
`read_data` fails with the `CrcMismatch` error class; it never defaults to a
resolution. -/
theorem C4_invalid_config_byte_fails (E : Type) (crc8 : List ℕ → ℕ)
    (address : ℕ) (r : ScratchpadResponses E) (t : List Event)
    (scratchpad : List ℕ)
    (hread : read_scratchpad E crc8 address r = (t, .ok scratchpad))
    (hcfg : ∀ res : ResolutionAsync,
      scratchpad.getD 4 0 ≠ res.to_config_register) :
    read_data E crc8 address r = (t, .error .crcMismatch) := by
  have hdec : decode_sensor_data E scratchpad = .error .crcMismatch := by
    unfold decode_sensor_data
    rw [(from_config_register_eq_none _).2 hcfg]
  unfold read_data
  rw [hread]
  simpa using hdec

/-- Witness for C4: an all-zero block (configuration byte `0x00`, checksum
byte consistent under the checksum function that is constantly `0`) makes
`read_data` fail with `CrcMismatch`. -/
theorem C4_invalid_config_byte_fails_witness :
    read_data Unit (fun _ => 0) 0
        ⟨.ok (), .ok (), .ok (), .ok [0, 0, 0, 0, 0, 0, 0, 0, 0]⟩
      = ([.reset, .matchAddress 0, .writeByte READ_SCRATCHPAD, .readBytes 9],
         .error .crcMismatch) :=
  C4_invalid_config_byte_fails Unit (fun _ => 0) 0
    ⟨.ok (), .ok (), .ok (), .ok [0, 0, 0, 0, 0, 0, 0, 0, 0]⟩
    [.reset, .matchAddress 0, .writeByte READ_SCRATCHPAD, .readBytes 9]
    [0, 0, 0, 0, 0, 0, 0, 0, 0] (by decide) (by intro r; cases r <;> decide)

/-- C7: `read_scratchpad` performs, in order, a bus reset, addressing of the
target device, the read-scratchpad opcode write, a read of exactly 9 bytes,
then checksum validation of the block; it fails with `CrcMismatch` on
checksum failure and returns any bus error unchanged from the step that
raised it. -/
theorem C7_read_scratchpad_protocol (E : Type) (crc8 : List ℕ → ℕ)
    (address : ℕ) (r : ScratchpadResponses E) :
    (∀ scratchpad : List ℕ,
      r.resetR = .ok () → r.addrR = .ok () → r.writeR = .ok () →
      r.readR = .ok scratchpad →
      (crc8 (scratchpad.take 8) = scratchpad.getD 8 0 →
        read_scratchpad E crc8 address r
          = ([.reset, .matchAddress address, .writeByte READ_SCRATCHPAD,
              .readBytes 9], .ok scratchpad))
      ∧ (crc8 (scratchpad.take 8) ≠ scratchpad.getD 8 0 →
        read_scratchpad E crc8 address r
          = ([.reset, .matchAddress address, .writeByte READ_SCRATCHPAD,
              .readBytes 9], .error .crcMismatch)))
    ∧ (∀ e, r.resetR = .error e →
        read_scratchpad E crc8 address r = ([.reset], .error e))
    ∧ (∀ e, r.resetR = .ok () → r.addrR = .error e →
        read_scratchpad E crc8 address r
          = ([.reset, .matchAddress address], .error e))
    ∧ (∀ e, r.resetR = .ok () → r.addrR = .ok () → r.writeR = .error e →
        read_scratchpad E crc8 address r
          = ([.reset, .matchAddress address, .writeByte READ_SCRATCHPAD],
             .error e))
    ∧ (∀ e, r.resetR = .ok () → r.addrR = .ok () → r.writeR = .ok () →
        r.readR = .error e →
        read_scratchpad E crc8 address r
          = ([.reset, .matchAddress address, .writeByte READ_SCRATCHPAD,
              .readBytes 9], .error e)) := by
  obtain ⟨r1, r2, r3, r4⟩ := r
  refine ⟨?_, ?_, ?_, ?_, ?_⟩
  · intro scratchpad h1 h2 h3 h4
    subst h1; subst h2; subst h3; subst h4
    constructor
    · intro hcrc
      simp only [read_scratchpad, check_crc8]
      rw [if_pos hcrc]
    · intro hcrc
      simp only [read_scratchpad, check_crc8]
      rw [if_neg hcrc]
  · intro e h1
    subst h1
    rfl
  · intro e h1 h2
    subst h1; subst h2
    rfl
  · intro e h1 h2 h3
    subst h1; subst h2; subst h3
    rfl
  · intro e h1 h2 h3 h4
    subst h1; subst h2; subst h3; subst h4
    rfl

/-- Witness for C7: with an all-successful bus delivering the block
`[1,...,8,0]` and the constant-zero checksum function, `read_scratchpad`
performs the four protocol steps in order and returns the block. -/
theorem C7_read_scratchpad_protocol_witness :
    read_scratchpad Unit (fun _ => 0) 5
        ⟨.ok (), .ok (), .ok (), .ok [1, 2, 3, 4, 5, 6, 7, 8, 0]⟩
      = ([.reset, .matchAddress 5, .writeByte READ_SCRATCHPAD, .readBytes 9],
         .ok [1, 2, 3, 4, 5, 6, 7, 8, 0]) :=
  ((C7_read_scratchpad_protocol Unit (fun _ => 0) 5
      ⟨.ok (), .ok (), .ok (), .ok [1, 2, 3, 4, 5, 6, 7, 8, 0]⟩).1
    [1, 2, 3, 4, 5, 6, 7, 8, 0] rfl rfl rfl rfl).1 (by decide)

/-- C6: `set_config` unicast-sends the write-scratchpad opcode and then
exactly three data bytes, in order the high-alarm threshold, the low-alarm
threshold and the resolution register byte; its trace never contains a bit
read or a byte-block read (no readback or verification). -/
theorem C6_set_config_writes_three_bytes (E : Type)
    (alarm_temp_low alarm_temp_high : ℤ) (resolution : ResolutionAsync)
    (address : ℕ) (r : SetConfigResponses E) :
    (r.cmd.resetR = .ok () → r.cmd.addrR = .ok () → r.cmd.writeR = .ok () →
      r.w1R = .ok () → r.w2R = .ok () → r.w3R = .ok () →
      set_config E alarm_temp_low alarm_temp_high resolution address r
        = ([.reset, .matchAddress address, .writeByte WRITE_SCRATCHPAD,
            .writeByte (byte_of_i8 alarm_temp_high),
            .writeByte (byte_of_i8 alarm_temp_low),
            .writeByte resolution.to_config_register], .ok ()))
    ∧ Event.readBit ∉
        (set_config E alarm_temp_low alarm_temp_high resolution address r).1
    ∧ (∀ n, Event.readBytes n ∉
        (set_config E alarm_temp_low alarm_temp_high resolution address r).1) := by
  obtain ⟨⟨c1, c2, c3⟩, w1, w2, w3⟩ := r
  refine ⟨?_, ?_⟩
  · intro h1 h2 h3 h4 h5 h6
    simp only at h1 h2 h3 h4 h5 h6
    subst h1; subst h2; subst h3; subst h4; subst h5; subst h6
    rfl
  · cases c1 <;> cases c2 <;> cases c3 <;> cases w1 <;> cases w2 <;> cases w3 <;>
      simp [set_config, send_command, addrEvent]

/-- Witness for C6: writing low alarm `-10`, high alarm `25` and 12-bit
resolution to the device at address `0x28` over an all-successful bus emits
the opcode and exactly the three data bytes `25`, `246`, `127` in order. -/
theorem C6_set_config_writes_three_bytes_witness :
    set_config Unit (-10) 25 .bits12 0x28
        ⟨⟨.ok (), .ok (), .ok ()⟩, .ok (), .ok (), .ok ()⟩
      = ([.reset, .matchAddress 0x28, .writeByte WRITE_SCRATCHPAD,
          .writeByte 25, .writeByte 246, .writeByte 127], .ok ()) :=
  (C6_set_config_writes_three_bytes Unit (-10) 25 .bits12 0x28
      ⟨⟨.ok (), .ok (), .ok ()⟩, .ok (), .ok (), .ok ()⟩).1
    rfl rfl rfl rfl rfl rfl

/-- C5: `save_to_eeprom` sends the copy-scratchpad opcode (unicast or
broadcast per caller) and, whenever that command phase succeeds, appends the
unconditional fixed 10000 µs delay to the trace before returning success;
its trace never contains a bit read (no polling), so there is no early
return. -/
theorem C5_save_waits_fixed_delay (E : Type) (target : Option ℕ)
    (r : CmdResponses E) :
    ((send_command E COPY_SCRATCHPAD target r).2 = .ok () →
      save_to_eeprom E target r
        = ((send_command E COPY_SCRATCHPAD target r).1 ++ [.delayUs 10000],
           .ok ()))
    ∧ Event.readBit ∉ (save_to_eeprom E target r).1 := by
  obtain ⟨c1, c2, c3⟩ := r
  cases target <;> cases c1 <;> cases c2 <;> cases c3 <;>
    refine ⟨fun h => ?_, ?_⟩ <;>
      simp_all [save_to_eeprom, send_command, addrEvent]

/-- Witness for C5: a broadcast persist over an all-successful bus emits the
command trace followed by the 10000 µs delay and succeeds. -/
theorem C5_save_waits_fixed_delay_witness :
    save_to_eeprom Unit none ⟨.ok (), .ok (), .ok ()⟩
      = ((send_command Unit COPY_SCRATCHPAD none ⟨.ok (), .ok (), .ok ()⟩).1
          ++ [.delayUs 10000], .ok ()) :=
  (C5_save_waits_fixed_delay Unit none ⟨.ok (), .ok (), .ok ()⟩).1 rfl

/-- C2 (amended): if the command phase succeeds and every polled bit reads 0,
`recall_from_eeprom` fails with `Timeout` after exactly
`⌊10000 / slot⌋ + 1` single-bit poll attempts (Rust integer division of the
10000 µs budget by the transport's per-read-slot duration) — no more and no
fewer; this equals the claimed `⌈10000 / slot⌉ + 1` only when `slot` divides
10000, and equals `⌈10000 / slot⌉` otherwise. -/
theorem C2_reload_timeout_poll_count (E : Type) (slot : ℕ) (target : Option ℕ)
    (rc : CmdResponses E) (bits : ℕ → Except (OneWireError E) Bool)
    (_hslot : 0 < slot)
    (hcmd : (send_command E RECALL_EEPROM target rc).2 = .ok ())
    (hbits : ∀ i, bits i = .ok false) :
    recall_from_eeprom E slot target rc bits
      = ((send_command E RECALL_EEPROM target rc).1
          ++ List.replicate (10000 / slot + 1) .readBit, .error .timeout) := by
  rcases hsc : send_command E RECALL_EEPROM target rc with ⟨t, res⟩
  rw [hsc] at hcmd
  simp only at hcmd
  subst hcmd
  unfold recall_from_eeprom
  rw [hsc, pollBits_all_false E bits hbits (10000 / slot + 1) 0]

/-- Witness for C2: with a 100 µs read slot (which divides the 10000 µs
budget), an all-successful command phase and an all-zero bus, reload times
out after exactly `10000 / 100 + 1 = 101` bit reads. -/
theorem C2_reload_timeout_poll_count_witness :
    recall_from_eeprom Unit 100 none ⟨.ok (), .ok (), .ok ()⟩
        (fun _ => .ok false)
      = ((send_command Unit RECALL_EEPROM none ⟨.ok (), .ok (), .ok ()⟩).1
          ++ List.replicate (10000 / 100 + 1) .readBit, .error .timeout) :=
  C2_reload_timeout_poll_count Unit 100 none ⟨.ok (), .ok (), .ok ()⟩
    (fun _ => .ok false) (by norm_num) rfl (fun _ => rfl)

set_option maxRecDepth 4000 in
/-- Counterexample for C2 as stated: with the transport's per-read-slot
duration at 70 µs (the value of the external constant
`one_wire_bus::READ_SLOT_DURATION_MICROS`, which does not divide 10000) and
an all-zero bus, the code performs `10000 / 70 + 1 = 143` bit-read attempts
before failing with `Timeout`, whereas the claim's bound
`⌈10000 / 70⌉ + 1 = 144`. -/
theorem C2_reload_ceil_bound_counterexample :
    ((recall_from_eeprom Unit 70 none ⟨.ok (), .ok (), .ok ()⟩
        (fun _ => .ok false)).1.count .readBit = 143)
    ∧ ((recall_from_eeprom Unit 70 none ⟨.ok (), .ok (), .ok ()⟩
        (fun _ => .ok false)).2 = .error .timeout)
    ∧ ((10000 + 70 - 1) / 70 + 1 = 144)
    ∧ (143 : ℕ) ≠ 144 := by
  refine ⟨by decide, by decide, by norm_num, by norm_num⟩

/-- C10: during the reload completion poll, if the first `k` polled bits read
0 (with `k` below the iteration bound), then a 1 bit at attempt `k` makes the
operation return success after exactly `k + 1` bit reads (no further reads),
and a transport-level error at attempt `k` is propagated unchanged after
exactly `k + 1` bit reads — neither counted toward the bound nor converted
into `Timeout`. -/
theorem C10_reload_poll_stops_at_first_deviation (E : Type) (slot : ℕ)
    (target : Option ℕ) (rc : CmdResponses E)
    (bits : ℕ → Except (OneWireError E) Bool) (k : ℕ)
    (hcmd : (send_command E RECALL_EEPROM target rc).2 = .ok ())
    (hk : k < 10000 / slot + 1)
    (hprev : ∀ j, j < k → bits j = .ok false) :
    (bits k = .ok true →
      recall_from_eeprom E slot target rc bits
        = ((send_command E RECALL_EEPROM target rc).1
            ++ List.replicate (k + 1) .readBit, .ok ()))
    ∧ (∀ e, bits k = .error e →
      recall_from_eeprom E slot target rc bits
        = ((send_command E RECALL_EEPROM target rc).1
            ++ List.replicate (k + 1) .readBit, .error e)) := by
  have hpoll := pollBits_first_deviation E bits (10000 / slot + 1) k 0 hk
    (fun j hj => by simpa using hprev j hj)
  rcases hsc : send_command E RECALL_EEPROM target rc with ⟨t, res⟩
  rw [hsc] at hcmd
  simp only at hcmd
  subst hcmd
  constructor
  · intro ht
    unfold recall_from_eeprom
    rw [hsc, hpoll.1 (by simpa using ht)]
  · intro e he
    unfold recall_from_eeprom
    rw [hsc, hpoll.2 e (by simpa using he)]

/-- Witness for C10: with a 70 µs read slot and a bus whose third polled bit
is the first 1 bit, reload succeeds after exactly 3 bit reads. -/
theorem C10_reload_poll_stops_at_first_deviation_witness :
    recall_from_eeprom Unit 70 none ⟨.ok (), .ok (), .ok ()⟩
        (fun i => if i = 2 then .ok true else .ok false)
      = ((send_command Unit RECALL_EEPROM none ⟨.ok (), .ok (), .ok ()⟩).1
          ++ List.replicate 3 .readBit, .ok ()) :=
  (C10_reload_poll_stops_at_first_deviation Unit 70 none
      ⟨.ok (), .ok (), .ok ()⟩ (fun i => if i = 2 then .ok true else .ok false)
      2 rfl (by norm_num) (by decide)).1 (by decide)
